import Mathlib

/-
Verification development for the usage-enforcement and billing-period
accounting subsystem of the Real-Estate-Analyzer repository.

The embedding covers:
 - the PostgreSQL trigger pipeline on public.property_analysis
   (enforce_subscription_limits BEFORE INSERT, increment_analysis_usage
   AFTER INSERT) from the migration SQL;
 - the client-side subscription utilities in
   src/integrations/supabase/subscription.ts;
 - the Stripe webhook handler handleInvoicePaymentSucceeded from
   api/stripe-webhook.ts.

Timestamps are modelled as a pair (month, tick): month is the absolute
month index (year times 12 plus month-of-year) and tick the position
inside that month.  DATE_TRUNC(month, t) is then (t.month, 0) and
adding INTERVAL 1 month to a month start is (t.month + 1, 0), which is
exactly how the source uses timestamps: period keys are always month
starts in the free path, and paid periods are opaque values copied from
the Stripe payload.
-/

structure Timestamp where
  month : Nat
  tick : Nat
deriving DecidableEq, Repr

/-- DATE_TRUNC('month', t): first instant of the month containing t. -/
def monthStart (t : Timestamp) : Timestamp := ⟨t.month, 0⟩

/-- DATE_TRUNC('month', t) + INTERVAL '1 month': first instant of the next month. -/
def nextMonthStart (t : Timestamp) : Timestamp := ⟨t.month + 1, 0⟩

/-- Chronological non-strict order on timestamps (lexicographic). -/
def Timestamp.leb (a b : Timestamp) : Bool :=
  decide (a.month < b.month ∨ (a.month = b.month ∧ a.tick ≤ b.tick))

/-- Chronological strict order on timestamps (lexicographic). -/
def Timestamp.ltb (a b : Timestamp) : Bool :=
  decide (a.month < b.month ∨ (a.month = b.month ∧ a.tick < b.tick))

/--
A row of public.user_subscriptions.  The schema also has id and
created_at columns, which no modelled code reads; they are omitted.
current_period_start and current_period_end are nullable in the schema,
but every writer in the repository (the signup trigger, the Stripe
checkout handler and every webhook handler) populates both, so they are
modelled as non-null.
-/
structure SubRow where
  user_id : Nat
  plan : String
  status : String
  stripe_customer_id : Option String
  stripe_subscription_id : Option String
  current_period_start : Timestamp
  current_period_end : Timestamp
  updated_at : Timestamp
deriving DecidableEq, Repr

/-- A row of public.analysis_usage.  UNIQUE(user_id, period_start). -/
structure UsageRow where
  user_id : Nat
  analysis_count : Nat
  period_start : Timestamp
  period_end : Timestamp
  created_at : Timestamp
  updated_at : Timestamp
deriving DecidableEq, Repr

/--
The client-visible fields of a row being inserted into
public.property_analysis: user_id as supplied by the client (the BEFORE
trigger overwrites it) and an optional client-supplied created_at.
-/
structure NewAnalysis where
  user_id : Nat
  created_at : Option Timestamp
deriving DecidableEq, Repr

/-- The fields of a property_analysis row that the trigger pipeline sets. -/
structure AnalysisRow where
  user_id : Nat
  plan_at_time : String
  created_at : Timestamp
  updated_at : Timestamp
deriving DecidableEq, Repr

/-- The two tables the enforcement core reads and writes. -/
structure DB where
  subs : List SubRow
  usage : List UsageRow
deriving DecidableEq, Repr

/-- Errors raised by enforce_subscription_limits. -/
inductive GateError where
  /-- RAISE EXCEPTION 'Not authenticated' USING ERRCODE = 'PGRST301'. -/
  | notAuthenticated
  /-- RAISE EXCEPTION ... USING ERRCODE, HINT; carries errcode, hint, message. -/
  | quotaExceeded (errcode : String) (hint : String) (message : String)
deriving DecidableEq, Repr

/-- The message of the free-plan quota rejection in enforce_subscription_limits. -/
def freeLimitMessage : String :=
  "Free plan limit reached: maximum 3 analyses per billing period. Please upgrade to pro or enterprise plan."

/--
SELECT ... FROM public.user_subscriptions WHERE user_id = uid AND
status = 'active' ORDER BY updated_at DESC LIMIT 1 — the row with the
greatest updated_at among the active rows of the user (the UNIQUE
constraint on user_id makes ties impossible in a well-formed database).
-/
def lookupActiveSub (uid : Nat) (subs : List SubRow) : Option SubRow :=
  (subs.filter (fun r => r.user_id == uid && r.status == "active")).foldl
    (fun best r =>
      match best with
      | none => some r
      | some b => if b.updated_at.ltb r.updated_at then some r else some b)
    none

/--
The plan/period resolution shared by both triggers: the active
subscription row if one exists, otherwise the free plan with the current
calendar month as the billing window.  enforce_subscription_limits keys
the default on v_plan IS NULL and increment_analysis_usage on
v_period_start IS NULL; with non-null period columns (see SubRow) both
conditions are exactly "no active row found".
-/
def resolvePlanPeriod (subs : List SubRow) (uid : Nat) (now : Timestamp) :
    String × Timestamp × Timestamp :=
  match lookupActiveSub uid subs with
  | some s => (s.plan, s.current_period_start, s.current_period_end)
  | none => ("free", monthStart now, nextMonthStart now)

/-- First usage row matching (user_id, period_start) — the upsert conflict key. -/
def findUsage (uid : Nat) (ps : Timestamp) : List UsageRow → Option UsageRow
  | [] => none
  | r :: rest =>
    if r.user_id = uid ∧ r.period_start = ps then some r else findUsage uid ps rest

/--
SELECT analysis_count FROM public.analysis_usage WHERE user_id = uid AND
period_start = ps AND period_end = pe — the count read of
enforce_subscription_limits (note: it also filters on period_end,
unlike the upsert conflict key).
-/
def readCountForPeriod (uid : Nat) (ps pe : Timestamp) : List UsageRow → Option Nat
  | [] => none
  | r :: rest =>
    if r.user_id = uid ∧ r.period_start = ps ∧ r.period_end = pe
    then some r.analysis_count
    else readCountForPeriod uid ps pe rest

/--
INSERT INTO public.analysis_usage (user_id, analysis_count,
period_start, period_end, created_at, updated_at) VALUES (uid, 1, ps,
pe, t, t) ON CONFLICT (user_id, period_start) DO UPDATE SET
analysis_count = analysis_count + 1, updated_at = t.  The DO UPDATE arm
touches only analysis_count and updated_at.
-/
def upsertUsage (uid : Nat) (ps pe t : Timestamp) : List UsageRow → List UsageRow
  | [] => [⟨uid, 1, ps, pe, t, t⟩]
  | r :: rest =>
    if r.user_id = uid ∧ r.period_start = ps
    then {r with analysis_count := r.analysis_count + 1, updated_at := t} :: rest
    else r :: upsertUsage uid ps pe t rest

/-- The stored counter for the (user, period-start) key, 0 when no row exists. -/
def countFor (uid : Nat) (ps : Timestamp) (l : List UsageRow) : Nat :=
  ((findUsage uid ps l).map (fun r => r.analysis_count)).getD 0

/--
The BEFORE INSERT trigger function public.enforce_subscription_limits:
forces NEW.user_id from auth.uid() (raising when unauthenticated),
resolves the plan and billing period, stamps plan_at_time, and for the
free plan rejects when the period counter has reached the limit 3.
Timestamps default to CURRENT_TIMESTAMP.
-/
def enforce_subscription_limits (db : DB) (authUid : Option Nat) (now : Timestamp)
    (new : NewAnalysis) : Except GateError AnalysisRow :=
  match authUid with
  | none => Except.error GateError.notAuthenticated
  | some uid =>
    -- NEW.user_id := auth.uid()  (never trust client)
    let new2 : NewAnalysis := {new with user_id := uid}
    let rpp := resolvePlanPeriod db.subs uid now
    let vplan := rpp.1
    let vps := rpp.2.1
    let vpe := rpp.2.2
    let vlimit : Nat := 3
    if vplan = "free" then
      let vcount := (readCountForPeriod new2.user_id vps vpe db.usage).getD 0
      if vlimit ≤ vcount then
        Except.error (GateError.quotaExceeded "P0001" "upgrade_required" freeLimitMessage)
      else
        Except.ok ⟨new2.user_id, vplan, new2.created_at.getD now, now⟩
    else
      Except.ok ⟨new2.user_id, vplan, new2.created_at.getD now, now⟩

/--
The AFTER INSERT trigger function public.increment_analysis_usage:
re-resolves the billing period from the active subscription (falling
back to the calendar month) and upserts the usage row, incrementing
analysis_count.
-/
def increment_analysis_usage (db : DB) (rowUserId : Nat) (now : Timestamp) :
    List UsageRow :=
  let rpp := resolvePlanPeriod db.subs rowUserId now
  upsertUsage rowUserId rpp.2.1 rpp.2.2 now db.usage

/--
One INSERT into public.property_analysis as executed by PostgreSQL: the
BEFORE trigger either aborts the statement (an exception rolls the
whole insert back, so the database is unchanged) or yields the stored
row, after which the AFTER trigger increments the usage counter.
-/
def insertAnalysis (db : DB) (authUid : Option Nat) (now : Timestamp)
    (new : NewAnalysis) : Except GateError (DB × AnalysisRow) :=
  match enforce_subscription_limits db authUid now new with
  | Except.error e => Except.error e
  | Except.ok row =>
    Except.ok ({db with usage := increment_analysis_usage db row.user_id now}, row)

/-- The database after a creation request: unchanged when the insert aborted. -/
def creationEndState (db : DB) (authUid : Option Nat) (now : Timestamp)
    (new : NewAnalysis) : DB :=
  match insertAnalysis db authUid now new with
  | Except.ok p => p.1
  | Except.error _ => db

/-- The user_id stored on the created analysis row, when one was created. -/
def storedUser : Except GateError (DB × AnalysisRow) → Option Nat
  | Except.ok p => some p.2.user_id
  | Except.error _ => none

/--
n consecutive creation requests for the same authenticated user at the
same instant.  Alongside each outcome the trace records the value of
the period counter right after the request (an observation of the
database, not part of the source).
-/
def runCreations (uid : Nat) (now : Timestamp) (new : NewAnalysis) :
    Nat → DB → DB × List (Option GateError × Nat)
  | 0, db => (db, [])
  | Nat.succ n, db =>
    match insertAnalysis db (some uid) now new with
    | Except.ok (db2, _row) =>
      let rest := runCreations uid now new n db2
      (rest.1,
        (none, countFor uid (resolvePlanPeriod db.subs uid now).2.1 db2.usage) :: rest.2)
    | Except.error e =>
      let rest := runCreations uid now new n db
      (rest.1,
        (some e, countFor uid (resolvePlanPeriod db.subs uid now).2.1 db.usage) :: rest.2)

/-
Client-side module src/integrations/supabase/subscription.ts.  The
Supabase queries are modelled as oracles passed in as arguments: an
Except value describing the outcome the storage layer produced for that
particular query (ok with the selected data, or error for a failed
read).  The authenticated user (supabase.auth.getUser) is an
Option Nat.
-/

/-- The SubscriptionStatus interface of subscription.ts. -/
structure SubscriptionStatus where
  plan : String
  status : String
  billingPeriodStart : Timestamp
  billingPeriodEnd : Timestamp
deriving DecidableEq, Repr

/-- The UsageInfo interface of subscription.ts.  The percentageUsed field
is display-only floating-point arithmetic and is not modelled. -/
structure UsageInfo where
  currentCount : Nat
  usageLimit : Nat
  remainingAllowance : Nat
deriving DecidableEq, Repr

/-- The SubscriptionCheckResult interface of subscription.ts (the
subscription and usage payload fields are not needed by any claim). -/
structure SubscriptionCheckResult where
  allowed : Bool
  message : Option String
deriving DecidableEq, Repr

/-- The rejection message of canSubmitAnalysis. -/
def freeClientLimitMessage : String :=
  "Free plan limit reached: maximum 3 analyses per billing period. Please upgrade to Pro or Enterprise for unlimited analyses."

/--
getCurrentBillingPeriod of subscription.ts: new Date(y, m, 1) and
new Date(y, m + 1, 1) — the first instant of the current month and of
the next month of the clock reading now.
-/
def getCurrentBillingPeriod (now : Timestamp) : Timestamp × Timestamp :=
  (monthStart now, nextMonthStart now)

/--
getUserSubscription of subscription.ts.  subRead is the outcome of the
single() query for an active subscription row whose period contains
now.  Every failure path lands on the free-plan default with the
current month as period: a missing auth user throws and is caught; a
query error is caught; and in the found-no-row branch the source
references periodStart/periodEnd before their declaration, which throws
a ReferenceError that the same catch turns into the identical default.
-/
def getUserSubscription (auth : Option Nat)
    (subRead : Except String (Option SubscriptionStatus)) (now : Timestamp) :
    SubscriptionStatus :=
  let fallback : SubscriptionStatus :=
    ⟨"free", "active", monthStart now, nextMonthStart now⟩
  match auth with
  | none => fallback
  | some _ =>
    match subRead with
    | Except.error _ => fallback
    | Except.ok (some s) => s
    | Except.ok none => fallback

/--
getCurrentUsageCount of subscription.ts.  usageRead is the outcome of
the single() query for the usage row of the current period; the error
value covers PGRST116 (no row) and every other storage error alike.
The function returns 0 on a missing auth user, on PGRST116 and on any
other error, and the analysis_count value otherwise.
-/
def getCurrentUsageCount (auth : Option Nat) (usageRead : Except String Nat) : Nat :=
  match auth with
  | none => 0
  | some _ =>
    match usageRead with
    | Except.error _ => 0
    | Except.ok n => n

/-- getUsageInfo of subscription.ts: limit 3 for free, 999 otherwise;
remainingAllowance is Math.max(0, limit - count), which truncated Nat
subtraction computes. -/
def getUsageInfo (auth : Option Nat) (usageRead : Except String Nat)
    (subRead : Except String (Option SubscriptionStatus)) (now : Timestamp) :
    UsageInfo :=
  let currentCount := getCurrentUsageCount auth usageRead
  let subscription := getUserSubscription auth subRead now
  let lim : Nat := if subscription.plan = "free" then 3 else 999
  ⟨currentCount, lim, lim - currentCount⟩

/--
canSubmitAnalysis of subscription.ts.  It calls getUserSubscription
directly (subRead1) and again through getUsageInfo (subRead2), plus
getCurrentUsageCount (usageRead).  The outer catch that returns
allowed=true is unreachable here because every callee already absorbs
its own errors.
-/
def canSubmitAnalysis (auth : Option Nat)
    (subRead1 subRead2 : Except String (Option SubscriptionStatus))
    (usageRead : Except String Nat) (now : Timestamp) : SubscriptionCheckResult :=
  let subscription := getUserSubscription auth subRead1 now
  let usage := getUsageInfo auth usageRead subRead2 now
  if subscription.plan = "free" ∧ 3 ≤ usage.currentCount then
    ⟨false, some freeClientLimitMessage⟩
  else
    ⟨true, none⟩

/-- The per-row update of handleInvoicePaymentSucceeded on
user_subscriptions: set status active and the new period bounds on
every row whose stripe_subscription_id matches. -/
def renewSub (sid : String) (ps pe t : Timestamp) (r : SubRow) : SubRow :=
  if r.stripe_subscription_id == some sid then
    {r with status := "active", current_period_start := ps,
            current_period_end := pe, updated_at := t}
  else r

/--
The usage-reset upsert of handleInvoicePaymentSucceeded.  The source
issues supabase.from("analysis_usage").upsert(payload, onConflict
"user_id"), which PostgREST compiles to INSERT ... ON CONFLICT
(user_id) DO UPDATE.  analysis_usage has no unique or exclusion
constraint on user_id alone (its key is UNIQUE(user_id, period_start)),
so PostgreSQL rejects the whole statement with error 42P10 and the
table is left unchanged; the source discards the returned error.
-/
def upsertUsageOnUserId (_uid : Nat) (_ps _pe _t : Timestamp)
    (_l : List UsageRow) : Except String (List UsageRow) :=
  Except.error "42P10"

/--
handleInvoicePaymentSucceeded of api/stripe-webhook.ts: for the
subscription id of the invoice (when present), set the subscription
rows with that stripe_subscription_id to active with the period bounds
retrieved from Stripe, then look up the owning user and attempt to
upsert a zeroed usage row for the new period (an attempt that fails,
see upsertUsageOnUserId, with the error ignored).
-/
def handleInvoicePaymentSucceeded (sid : Option String) (ps pe t : Timestamp)
    (db : DB) : DB :=
  match sid with
  | none => db
  | some s =>
    let subs2 := db.subs.map (renewSub s ps pe t)
    match subs2.find? (fun r => r.stripe_subscription_id == some s) with
    | none => {db with subs := subs2}
    | some sub =>
      match upsertUsageOnUserId sub.user_id ps pe t db.usage with
      | Except.ok l2 => {subs := subs2, usage := l2}
      | Except.error _ => {db with subs := subs2}

/-
Interleaved execution of creation requests.  Under READ COMMITTED (the
PostgreSQL default, which Supabase uses) the BEFORE-trigger check of a
request reads only committed state, while the ON CONFLICT upsert of the
AFTER trigger serializes against concurrent writers and becomes visible
at commit.  A request is therefore two atomic steps against the shared
database: its check (which reads the committed counter) and, when the
check passed, its insert-and-increment (which commits the bumped
counter).  A schedule is a list of request indices; the first
occurrence of an index runs its check, the second its increment.
-/

inductive Phase where
  | pending
  | approved
  | doneAllowed
  | doneRejected
deriving DecidableEq, Repr

/-- One scheduler step: advance request i by one atomic phase. -/
def schedStep (uid : Nat) (now : Timestamp) (new : NewAnalysis) :
    DB × List Phase → Nat → DB × List Phase
  | (db, phases), i =>
    match phases[i]? with
    | some Phase.pending =>
      match enforce_subscription_limits db (some uid) now new with
      | Except.ok _ => (db, phases.set i Phase.approved)
      | Except.error _ => (db, phases.set i Phase.doneRejected)
    | some Phase.approved =>
      ({db with usage := increment_analysis_usage db uid now},
        phases.set i Phase.doneAllowed)
    | _ => (db, phases)

/-- Run a schedule of interleaved request steps. -/
def runSchedule (uid : Nat) (now : Timestamp) (new : NewAnalysis)
    (start : DB × List Phase) (sched : List Nat) : DB × List Phase :=
  sched.foldl (schedStep uid now new) start

/-
Timezone-aware clock model for the client Billing Period Calculator.
The abstract Timestamp above erases timezones; the definitions below
recover them for one purpose: new Date() in the browser renders the
current instant in the local timezone of that browser, so getFullYear
and getMonth — and with them the window new Date(y, m, 1) ..
new Date(y, m + 1, 1) — depend on the timezone offset, not only on the
instant.
-/

/-- A civil date-time: Gregorian year, month 0-11 (the getMonth
convention), day 1-based, and minute of day 0-1439. -/
structure CivilTime where
  year : Nat
  month : Nat
  day : Nat
  minute : Nat
deriving DecidableEq, Repr

/-- Gregorian leap-year rule. -/
def isLeap (y : Nat) : Bool :=
  (y % 4 == 0 && y % 100 != 0) || y % 400 == 0

/-- Days in a month (month 0-11). -/
def daysInMonth (y m : Nat) : Nat :=
  if m = 1 then (if isLeap y then 29 else 28)
  else if m = 3 ∨ m = 5 ∨ m = 8 ∨ m = 10 then 30
  else 31

/--
Render a UTC civil time in the zone UTC+offset (offset in minutes,
magnitude below one day): add the offset to the minute of day, and
borrow or carry across the day, month and year boundaries of the
Gregorian calendar.  This is what the browser clock does when the
runtime formats the current instant in its local timezone.
-/
def addOffset (t : CivilTime) (offset : Int) : CivilTime :=
  let tot : Int := (t.minute : Int) + offset
  if tot < 0 then
    let m := (tot + 1440).toNat
    if 1 < t.day then ⟨t.year, t.month, t.day - 1, m⟩
    else if 0 < t.month then ⟨t.year, t.month - 1, daysInMonth t.year (t.month - 1), m⟩
    else ⟨t.year - 1, 11, daysInMonth (t.year - 1) 11, m⟩
  else if 1440 ≤ tot then
    let m := (tot - 1440).toNat
    if t.day < daysInMonth t.year t.month then ⟨t.year, t.month, t.day + 1, m⟩
    else if t.month < 11 then ⟨t.year, t.month + 1, 1, m⟩
    else ⟨t.year + 1, 0, 1, m⟩
  else ⟨t.year, t.month, t.day, tot.toNat⟩

/-- The absolute month index (year times 12 plus month) of the local
rendering of a UTC instant — the month field of the abstract Timestamp. -/
def localMonthIndex (utcNow : CivilTime) (tzOffsetMinutes : Int) : Nat :=
  (addOffset utcNow tzOffsetMinutes).year * 12 + (addOffset utcNow tzOffsetMinutes).month

/--
getCurrentBillingPeriod of subscription.ts as evaluated in a browser
sitting in the zone UTC+tzOffsetMinutes at the UTC instant utcNow: the
local rendering of the instant is converted to the abstract clock
reading (month index, position in month) and fed to the calculator, so
the resulting window is the local calendar month of that zone.
-/
def getCurrentBillingPeriodInZone (utcNow : CivilTime) (tzOffsetMinutes : Int) :
    Timestamp × Timestamp :=
  getCurrentBillingPeriod
    ⟨localMonthIndex utcNow tzOffsetMinutes,
     ((addOffset utcNow tzOffsetMinutes).day - 1) * 1440
       + (addOffset utcNow tzOffsetMinutes).minute⟩

/-
Helper lemmas about the ledger list operations.
-/

/-- The period-filtered count read finds nothing when no row has the
(user, period-start) key at all. -/
theorem readCountForPeriod_none_of_findUsage_none (uid : Nat) (ps pe : Timestamp) :
    ∀ l : List UsageRow, findUsage uid ps l = none → readCountForPeriod uid ps pe l = none
  | [], _ => rfl
  | r :: rest, h => by
    unfold findUsage at h
    unfold readCountForPeriod
    by_cases h2 : r.user_id = uid ∧ r.period_start = ps
    · rw [if_pos h2] at h
      cases h
    · rw [if_neg h2] at h
      rw [if_neg (fun hc => h2 ⟨hc.1, hc.2.1⟩)]
      exact readCountForPeriod_none_of_findUsage_none uid ps pe rest h

/-- When the first (user, period-start) row also carries the expected
period_end, the period-filtered count read returns its count. -/
theorem readCountForPeriod_of_findUsage (uid : Nat) (ps pe : Timestamp) :
    ∀ (l : List UsageRow) (r : UsageRow), findUsage uid ps l = some r →
      r.period_end = pe → readCountForPeriod uid ps pe l = some r.analysis_count
  | [], r, h, _ => by simp [findUsage] at h
  | x :: rest, r, h, hpe => by
    unfold findUsage at h
    unfold readCountForPeriod
    by_cases h2 : x.user_id = uid ∧ x.period_start = ps
    · rw [if_pos h2] at h
      cases h
      rw [if_pos ⟨h2.1, h2.2, hpe⟩]
    · rw [if_neg h2] at h
      rw [if_neg (fun hc => h2 ⟨hc.1, hc.2.1⟩)]
      exact readCountForPeriod_of_findUsage uid ps pe rest r h hpe

/-- Upserting into a ledger with no row for the key appends a fresh row
with count 1. -/
theorem findUsage_upsert_none (uid : Nat) (ps pe t : Timestamp) :
    ∀ l : List UsageRow, findUsage uid ps l = none →
      findUsage uid ps (upsertUsage uid ps pe t l) = some ⟨uid, 1, ps, pe, t, t⟩
  | [], _ => by simp [upsertUsage, findUsage]
  | r :: rest, h => by
    unfold findUsage at h
    by_cases h2 : r.user_id = uid ∧ r.period_start = ps
    · rw [if_pos h2] at h
      cases h
    · rw [if_neg h2] at h
      unfold upsertUsage
      rw [if_neg h2]
      unfold findUsage
      rw [if_neg h2]
      exact findUsage_upsert_none uid ps pe t rest h

/-- Upserting into a ledger that already has a row for the key bumps
that row by one and stamps updated_at. -/
theorem findUsage_upsert_some (uid : Nat) (ps pe t : Timestamp) :
    ∀ (l : List UsageRow) (r : UsageRow), findUsage uid ps l = some r →
      findUsage uid ps (upsertUsage uid ps pe t l)
        = some {r with analysis_count := r.analysis_count + 1, updated_at := t}
  | [], r, h => by simp [findUsage] at h
  | x :: rest, r, h => by
    unfold findUsage at h
    by_cases h2 : x.user_id = uid ∧ x.period_start = ps
    · rw [if_pos h2] at h
      cases h
      unfold upsertUsage
      rw [if_pos h2]
      unfold findUsage
      simp [h2]
    · rw [if_neg h2] at h
      unfold upsertUsage
      rw [if_neg h2]
      unfold findUsage
      rw [if_neg h2]
      exact findUsage_upsert_some uid ps pe t rest r h

/-- The atomic upsert increments the counter for its key by exactly 1. -/
theorem countFor_upsert (uid : Nat) (ps pe t : Timestamp) (l : List UsageRow) :
    countFor uid ps (upsertUsage uid ps pe t l) = countFor uid ps l + 1 := by
  unfold countFor
  cases h : findUsage uid ps l with
  | none => rw [findUsage_upsert_none uid ps pe t l h]; rfl
  | some r => rw [findUsage_upsert_some uid ps pe t l r h]; rfl

/-- A free-plan request under the limit is approved: the stored row
carries the authenticated user and plan free, and the period counter is
upserted. -/
theorem insert_free_allowed (db : DB) (uid : Nat) (now : Timestamp) (new : NewAnalysis)
    (ps pe : Timestamp)
    (hres : resolvePlanPeriod db.subs uid now = ("free", ps, pe))
    (hc : (readCountForPeriod uid ps pe db.usage).getD 0 < 3) :
    insertAnalysis db (some uid) now new
      = Except.ok ({db with usage := upsertUsage uid ps pe now db.usage},
          ⟨uid, "free", new.created_at.getD now, now⟩) := by
  unfold insertAnalysis enforce_subscription_limits increment_analysis_usage
  simp [hres, Nat.not_le.mpr hc]

/-- A free-plan request at or above the limit is rejected with the
quota error. -/
theorem insert_free_rejected (db : DB) (uid : Nat) (now : Timestamp) (new : NewAnalysis)
    (ps pe : Timestamp)
    (hres : resolvePlanPeriod db.subs uid now = ("free", ps, pe))
    (hc : 3 ≤ (readCountForPeriod uid ps pe db.usage).getD 0) :
    insertAnalysis db (some uid) now new
      = Except.error (GateError.quotaExceeded "P0001" "upgrade_required" freeLimitMessage) := by
  unfold insertAnalysis enforce_subscription_limits
  simp [hres, hc]

/-- A request under a non-free plan is always approved and still
increments the counter. -/
theorem insert_paid (db : DB) (uid : Nat) (now : Timestamp) (new : NewAnalysis)
    (p : String) (ps pe : Timestamp)
    (hres : resolvePlanPeriod db.subs uid now = (p, ps, pe))
    (hnf : ¬ p = "free") :
    insertAnalysis db (some uid) now new
      = Except.ok ({db with usage := upsertUsage uid ps pe now db.usage},
          ⟨uid, p, new.created_at.getD now, now⟩) := by
  unfold insertAnalysis enforce_subscription_limits increment_analysis_usage
  simp [hres, hnf]

/-- Every approved row carries the authenticated user id. -/
theorem enforce_ok_user (db : DB) (uid : Nat) (now : Timestamp) (new : NewAnalysis)
    (r : AnalysisRow)
    (h : enforce_subscription_limits db (some uid) now new = Except.ok r) :
    r.user_id = uid := by
  simp only [enforce_subscription_limits] at h
  split_ifs at h <;> cases h <;> rfl

/-- Unfolding one approved step of runCreations. -/
theorem runCreations_succ_ok (uid : Nat) (now : Timestamp) (new : NewAnalysis)
    (n : Nat) (db db2 : DB) (row : AnalysisRow)
    (h : insertAnalysis db (some uid) now new = Except.ok (db2, row)) :
    runCreations uid now new (n + 1) db
      = ((runCreations uid now new n db2).1,
         (none, countFor uid (resolvePlanPeriod db.subs uid now).2.1 db2.usage)
           :: (runCreations uid now new n db2).2) := by
  simp [runCreations, h]

/-- Unfolding one rejected step of runCreations. -/
theorem runCreations_succ_err (uid : Nat) (now : Timestamp) (new : NewAnalysis)
    (n : Nat) (db : DB) (e : GateError)
    (h : insertAnalysis db (some uid) now new = Except.error e) :
    runCreations uid now new (n + 1) db
      = ((runCreations uid now new n db).1,
         (some e, countFor uid (resolvePlanPeriod db.subs uid now).2.1 db.usage)
           :: (runCreations uid now new n db).2) := by
  simp [runCreations, h]

/-- Evaluated form of the renewal handler: the subscription rows are
rewritten and (because the usage upsert fails with 42P10 and its error
is discarded) the usage table is untouched. -/
theorem handleInvoicePaymentSucceeded_eval (s : String) (ps pe t : Timestamp) (d : DB) :
    handleInvoicePaymentSucceeded (some s) ps pe t d
      = ⟨d.subs.map (renewSub s ps pe t), d.usage⟩ := by
  unfold handleInvoicePaymentSucceeded upsertUsageOnUserId
  cases hf : (d.subs.map (renewSub s ps pe t)).find?
      (fun r => r.stripe_subscription_id == some s) with
  | none => simp [hf]
  | some sub => simp [hf]

/-- Applying the renewal row update twice is the same as applying it once. -/
theorem renewSub_idem (sid : String) (ps pe t : Timestamp) (r : SubRow) :
    renewSub sid ps pe t (renewSub sid ps pe t r) = renewSub sid ps pe t r := by
  unfold renewSub
  by_cases h : r.stripe_subscription_id == some sid
  · simp [h]
  · simp [h]

/--
C1: for a free-plan user with no prior usage row for the current
billing period, four consecutive creation requests produce exactly
three approvals with post-increment counts 1, 2, 3, and a fourth
rejection carrying the quota error (errcode P0001, hint
upgrade_required, the message naming the limit 3 — the rejection the
spec labels QUOTA_EXCEEDED) with the counter still at 3.
-/
theorem free_plan_quota_ceiling (db : DB) (uid : Nat) (now : Timestamp)
    (new : NewAnalysis) (ps pe : Timestamp)
    (hres : resolvePlanPeriod db.subs uid now = ("free", ps, pe))
    (hu : findUsage uid ps db.usage = none) :
    (runCreations uid now new 4 db).2
      = [(none, 1), (none, 2), (none, 3),
         (some (GateError.quotaExceeded "P0001" "upgrade_required" freeLimitMessage), 3)] := by
  have hf1 : findUsage uid ps (upsertUsage uid ps pe now db.usage)
      = some ⟨uid, 1, ps, pe, now, now⟩ :=
    findUsage_upsert_none uid ps pe now db.usage hu
  have hf2 : findUsage uid ps
        (upsertUsage uid ps pe now (upsertUsage uid ps pe now db.usage))
      = some ⟨uid, 2, ps, pe, now, now⟩ :=
    findUsage_upsert_some uid ps pe now _ _ hf1
  have hf3 : findUsage uid ps
        (upsertUsage uid ps pe now (upsertUsage uid ps pe now (upsertUsage uid ps pe now db.usage)))
      = some ⟨uid, 3, ps, pe, now, now⟩ :=
    findUsage_upsert_some uid ps pe now _ _ hf2
  have hr0 : readCountForPeriod uid ps pe db.usage = none :=
    readCountForPeriod_none_of_findUsage_none uid ps pe db.usage hu
  have hr1 : readCountForPeriod uid ps pe (upsertUsage uid ps pe now db.usage) = some 1 :=
    readCountForPeriod_of_findUsage uid ps pe _ _ hf1 rfl
  have hr2 : readCountForPeriod uid ps pe
      (upsertUsage uid ps pe now (upsertUsage uid ps pe now db.usage)) = some 2 :=
    readCountForPeriod_of_findUsage uid ps pe _ _ hf2 rfl
  have hr3 : readCountForPeriod uid ps pe
      (upsertUsage uid ps pe now (upsertUsage uid ps pe now (upsertUsage uid ps pe now db.usage))) = some 3 :=
    readCountForPeriod_of_findUsage uid ps pe _ _ hf3 rfl
  have h1 : insertAnalysis db (some uid) now new
      = Except.ok ((⟨db.subs, upsertUsage uid ps pe now db.usage⟩ : DB),
          (⟨uid, "free", new.created_at.getD now, now⟩ : AnalysisRow)) :=
    insert_free_allowed db uid now new ps pe hres (by rw [hr0]; decide)
  have h2 : insertAnalysis (⟨db.subs, upsertUsage uid ps pe now db.usage⟩ : DB) (some uid) now new
      = Except.ok ((⟨db.subs, upsertUsage uid ps pe now (upsertUsage uid ps pe now db.usage)⟩ : DB),
          (⟨uid, "free", new.created_at.getD now, now⟩ : AnalysisRow)) :=
    insert_free_allowed _ uid now new ps pe hres
      (by show (readCountForPeriod uid ps pe (upsertUsage uid ps pe now db.usage)).getD 0 < 3
          rw [hr1]; decide)
  have h3 : insertAnalysis (⟨db.subs, upsertUsage uid ps pe now (upsertUsage uid ps pe now db.usage)⟩ : DB) (some uid) now new
      = Except.ok ((⟨db.subs, upsertUsage uid ps pe now (upsertUsage uid ps pe now (upsertUsage uid ps pe now db.usage))⟩ : DB),
          (⟨uid, "free", new.created_at.getD now, now⟩ : AnalysisRow)) :=
    insert_free_allowed _ uid now new ps pe hres
      (by show (readCountForPeriod uid ps pe (upsertUsage uid ps pe now (upsertUsage uid ps pe now db.usage))).getD 0 < 3
          rw [hr2]; decide)
  have h4 : insertAnalysis (⟨db.subs, upsertUsage uid ps pe now (upsertUsage uid ps pe now (upsertUsage uid ps pe now db.usage))⟩ : DB) (some uid) now new
      = Except.error (GateError.quotaExceeded "P0001" "upgrade_required" freeLimitMessage) :=
    insert_free_rejected _ uid now new ps pe hres
      (by show 3 ≤ (readCountForPeriod uid ps pe (upsertUsage uid ps pe now (upsertUsage uid ps pe now (upsertUsage uid ps pe now db.usage)))).getD 0
          rw [hr3]; decide)
  have hc1 : countFor uid ps (upsertUsage uid ps pe now db.usage) = 1 := by
    unfold countFor; rw [hf1]; rfl
  have hc2 : countFor uid ps (upsertUsage uid ps pe now (upsertUsage uid ps pe now db.usage)) = 2 := by
    unfold countFor; rw [hf2]; rfl
  have hc3 : countFor uid ps (upsertUsage uid ps pe now (upsertUsage uid ps pe now (upsertUsage uid ps pe now db.usage))) = 3 := by
    unfold countFor; rw [hf3]; rfl
  simp [runCreations, h1, h2, h3, h4, hres, hc1, hc2, hc3]

/-- Witness for C1: a brand-new free user (no subscription row, empty
ledger) gets approvals with counts 1, 2, 3 and then the quota
rejection. -/
theorem free_plan_quota_ceiling_witness :
    resolvePlanPeriod ((⟨[], []⟩ : DB)).subs 1 ⟨600, 5⟩
        = ("free", (⟨600, 0⟩ : Timestamp), (⟨601, 0⟩ : Timestamp))
    ∧ findUsage 1 ⟨600, 0⟩ ((⟨[], []⟩ : DB)).usage = none
    ∧ (runCreations 1 ⟨600, 5⟩ ⟨42, none⟩ 4 ⟨[], []⟩).2
        = [(none, 1), (none, 2), (none, 3),
           (some (GateError.quotaExceeded "P0001" "upgrade_required" freeLimitMessage), 3)] :=
  ⟨rfl, rfl,
    free_plan_quota_ceiling ⟨[], []⟩ 1 ⟨600, 5⟩ ⟨42, none⟩ ⟨600, 0⟩ ⟨601, 0⟩ rfl rfl⟩

/--
C2: the claim that 10 concurrent creation requests for a free user at
count 0 always end with exactly 3 approvals fails on the code.  The
BEFORE-trigger check and the AFTER-trigger increment are separate
storage operations, so under READ COMMITTED all ten checks can read the
committed count 0 before any increment commits: this schedule approves
all 10 requests and drives the counter to 10.
-/
theorem concurrent_checks_allow_ten :
    (runSchedule 1 ⟨600, 5⟩ ⟨42, none⟩ ((⟨[], []⟩ : DB), List.replicate 10 Phase.pending)
        [0, 1, 2, 3, 4, 5, 6, 7, 8, 9, 0, 1, 2, 3, 4, 5, 6, 7, 8, 9]).2
      = List.replicate 10 Phase.doneAllowed
    ∧ countFor 1 (monthStart ⟨600, 5⟩)
        (runSchedule 1 ⟨600, 5⟩ ⟨42, none⟩ ((⟨[], []⟩ : DB), List.replicate 10 Phase.pending)
          [0, 1, 2, 3, 4, 5, 6, 7, 8, 9, 0, 1, 2, 3, 4, 5, 6, 7, 8, 9]).1.usage = 10 := by
  constructor <;> rfl

/--
C3 (counterexample): a creation check during which every storage read
fails returns allowed = true — an implicit approval, refuting the claim
that storage failure always yields a rejection.
-/
theorem canSubmitAnalysis_fails_open_cex :
    canSubmitAnalysis (some 1) (Except.error "connection failed")
      (Except.error "connection failed") (Except.error "connection failed")
      ⟨600, 5⟩ = ⟨true, none⟩ := rfl

/--
C3 (amended): canSubmitAnalysis does not fail closed on storage
errors: whenever the usage read fails, the count defaults to 0 and the
result is allowed = true — an implicit approval — for every
authentication state and every outcome of the two subscription reads;
and a failed subscription read does not fail the gate either: it is
absorbed into the free-plan default with the current month as period.
(A subscription-read failure can therefore even cause a spurious
free-limit rejection of a paid user whose usage read succeeds at count
at least 3, so the failure behaviour is a silent default, not the
required fail-closed rejection.)
-/
theorem canSubmitAnalysis_fails_open (auth : Option Nat)
    (subRead1 subRead2 : Except String (Option SubscriptionStatus))
    (e e2 : String) (now : Timestamp) :
    (canSubmitAnalysis auth subRead1 subRead2 (Except.error e) now).allowed = true
    ∧ getUserSubscription auth (Except.error e2) now
        = ⟨"free", "active", monthStart now, nextMonthStart now⟩ := by
  constructor
  · cases auth <;> simp [canSubmitAnalysis, getUsageInfo, getCurrentUsageCount]
  · cases auth <;> rfl

/--
C5: for a user whose active subscription has plan pro or enterprise,
every one of n consecutive creation requests is approved (no rejection
for any n) and the usage counter for the subscription period still
increments on each one, ending at its initial value plus n.
-/
theorem paid_plan_unlimited (n : Nat) : ∀ (db : DB) (uid : Nat) (now : Timestamp)
    (new : NewAnalysis) (s : SubRow), lookupActiveSub uid db.subs = some s →
    (s.plan = "pro" ∨ s.plan = "enterprise") →
    (runCreations uid now new n db).2.map Prod.fst = List.replicate n none
    ∧ countFor uid s.current_period_start (runCreations uid now new n db).1.usage
        = countFor uid s.current_period_start db.usage + n := by
  induction n with
  | zero =>
    intro db uid now new s hs hplan
    simp [runCreations]
  | succ n ih =>
    intro db uid now new s hs hplan
    have hres : resolvePlanPeriod db.subs uid now
        = (s.plan, s.current_period_start, s.current_period_end) := by
      unfold resolvePlanPeriod
      rw [hs]
    have hnf : ¬ s.plan = "free" := by
      rcases hplan with h | h <;> rw [h] <;> simp
    have h1 := insert_paid db uid now new s.plan s.current_period_start s.current_period_end hres hnf
    have hs2 : lookupActiveSub uid
        ((⟨db.subs, upsertUsage uid s.current_period_start s.current_period_end now db.usage⟩ : DB)).subs
        = some s := hs
    obtain ⟨ihA, ihB⟩ := ih ⟨db.subs, upsertUsage uid s.current_period_start s.current_period_end now db.usage⟩
      uid now new s hs2 hplan
    rw [runCreations_succ_ok uid now new n db _ _ h1]
    constructor
    · simp [ihA, List.replicate_succ]
    · show countFor uid s.current_period_start
        (runCreations uid now new n
          (⟨db.subs, upsertUsage uid s.current_period_start s.current_period_end now db.usage⟩ : DB)).1.usage
        = countFor uid s.current_period_start db.usage + (n + 1)
      rw [ihB]
      show countFor uid s.current_period_start
          (upsertUsage uid s.current_period_start s.current_period_end now db.usage) + n
        = countFor uid s.current_period_start db.usage + (n + 1)
      rw [countFor_upsert]
      omega

/-- Witness for C5: a pro user gets 100 consecutive approvals and the
counter reaches 100. -/
theorem paid_plan_unlimited_witness :
    lookupActiveSub 1
        ((⟨[⟨1, "pro", "active", some "cus_1", some "sub_1", ⟨600, 0⟩, ⟨601, 0⟩, ⟨600, 0⟩⟩], []⟩ : DB)).subs
      = some ⟨1, "pro", "active", some "cus_1", some "sub_1", ⟨600, 0⟩, ⟨601, 0⟩, ⟨600, 0⟩⟩
    ∧ ((⟨1, "pro", "active", some "cus_1", some "sub_1", ⟨600, 0⟩, ⟨601, 0⟩, ⟨600, 0⟩⟩ : SubRow).plan = "pro"
        ∨ (⟨1, "pro", "active", some "cus_1", some "sub_1", ⟨600, 0⟩, ⟨601, 0⟩, ⟨600, 0⟩⟩ : SubRow).plan = "enterprise")
    ∧ ((runCreations 1 ⟨600, 5⟩ ⟨42, none⟩ 100
          ⟨[⟨1, "pro", "active", some "cus_1", some "sub_1", ⟨600, 0⟩, ⟨601, 0⟩, ⟨600, 0⟩⟩], []⟩).2.map Prod.fst
        = List.replicate 100 none
      ∧ countFor 1 ⟨600, 0⟩
          (runCreations 1 ⟨600, 5⟩ ⟨42, none⟩ 100
            ⟨[⟨1, "pro", "active", some "cus_1", some "sub_1", ⟨600, 0⟩, ⟨601, 0⟩, ⟨600, 0⟩⟩], []⟩).1.usage
        = countFor 1 ⟨600, 0⟩ [] + 100) :=
  ⟨rfl, Or.inl rfl,
    paid_plan_unlimited 100
      ⟨[⟨1, "pro", "active", some "cus_1", some "sub_1", ⟨600, 0⟩, ⟨601, 0⟩, ⟨600, 0⟩⟩], []⟩
      1 ⟨600, 5⟩ ⟨42, none⟩
      ⟨1, "pro", "active", some "cus_1", some "sub_1", ⟨600, 0⟩, ⟨601, 0⟩, ⟨600, 0⟩⟩
      rfl (Or.inl rfl)⟩

/--
C6: when the free-plan check rejects a creation (counter at or above
the limit 3), the request fails with the quota error and the whole
request leaves the database — in particular every usage counter —
unchanged, because the BEFORE-trigger exception aborts the INSERT
before the AFTER-trigger increment can run.
-/
theorem rejected_request_leaves_counter (db : DB) (uid : Nat) (now : Timestamp)
    (new : NewAnalysis) (ps pe : Timestamp)
    (hres : resolvePlanPeriod db.subs uid now = ("free", ps, pe))
    (hc : 3 ≤ (readCountForPeriod uid ps pe db.usage).getD 0) :
    insertAnalysis db (some uid) now new
      = Except.error (GateError.quotaExceeded "P0001" "upgrade_required" freeLimitMessage)
    ∧ creationEndState db (some uid) now new = db := by
  have h := insert_free_rejected db uid now new ps pe hres hc
  refine ⟨h, ?_⟩
  unfold creationEndState
  rw [h]

/-- Witness for C6: a free user at count 3 is rejected and the ledger
row stays exactly as it was. -/
theorem rejected_request_leaves_counter_witness :
    resolvePlanPeriod ((⟨[], [⟨1, 3, ⟨600, 0⟩, ⟨601, 0⟩, ⟨600, 1⟩, ⟨600, 1⟩⟩]⟩ : DB)).subs 1 ⟨600, 5⟩
        = ("free", (⟨600, 0⟩ : Timestamp), (⟨601, 0⟩ : Timestamp))
    ∧ 3 ≤ (readCountForPeriod 1 ⟨600, 0⟩ ⟨601, 0⟩
        ((⟨[], [⟨1, 3, ⟨600, 0⟩, ⟨601, 0⟩, ⟨600, 1⟩, ⟨600, 1⟩⟩]⟩ : DB)).usage).getD 0
    ∧ (insertAnalysis ⟨[], [⟨1, 3, ⟨600, 0⟩, ⟨601, 0⟩, ⟨600, 1⟩, ⟨600, 1⟩⟩]⟩ (some 1) ⟨600, 5⟩ ⟨42, none⟩
        = Except.error (GateError.quotaExceeded "P0001" "upgrade_required" freeLimitMessage)
      ∧ creationEndState ⟨[], [⟨1, 3, ⟨600, 0⟩, ⟨601, 0⟩, ⟨600, 1⟩, ⟨600, 1⟩⟩]⟩ (some 1) ⟨600, 5⟩ ⟨42, none⟩
        = ⟨[], [⟨1, 3, ⟨600, 0⟩, ⟨601, 0⟩, ⟨600, 1⟩, ⟨600, 1⟩⟩]⟩) :=
  ⟨rfl, by decide,
    rejected_request_leaves_counter ⟨[], [⟨1, 3, ⟨600, 0⟩, ⟨601, 0⟩, ⟨600, 1⟩, ⟨600, 1⟩⟩]⟩
      1 ⟨600, 5⟩ ⟨42, none⟩ ⟨600, 0⟩ ⟨601, 0⟩ rfl (by decide)⟩

/--
C7 (counterexample): the billing window the client calculator computes
is not computed in a fixed reference timezone: at the single UTC
instant March 1 2026 00:00, a browser in UTC obtains the March window
while a browser in UTC-1 renders the instant as February 28 23:00 and
obtains the February window — the same moment yields different windows
in different zones, and whichever zone differs from the database
session timezone diverges from the window the triggers use.
-/
theorem billing_period_depends_on_timezone :
    getCurrentBillingPeriodInZone ⟨2026, 2, 1, 0⟩ 0
      ≠ getCurrentBillingPeriodInZone ⟨2026, 2, 1, 0⟩ (-60) := by decide

/--
C7 (amended): a user with no active subscription row resolves to plan
free with the current calendar month as billing period, on the SQL
default path and on the client path alike; the window is the half-open
first-of-month to first-of-next-month interval containing now, and the
calculator is a pure, deterministic function of the clock reading of
the component that runs it — but not of one fixed reference timezone:
the browser computes the window in its local timezone (see the
counterexample), while the database uses its fixed session timezone.
-/
theorem default_resolution_free_month (db : DB) (uid : Nat) (now : Timestamp)
    (h : lookupActiveSub uid db.subs = none) :
    resolvePlanPeriod db.subs uid now = ("free", monthStart now, nextMonthStart now)
    ∧ getCurrentBillingPeriod now = (monthStart now, nextMonthStart now)
    ∧ getUserSubscription (some uid) (Except.ok none) now
        = ⟨"free", "active", monthStart now, nextMonthStart now⟩
    ∧ Timestamp.leb (monthStart now) now = true
    ∧ Timestamp.ltb now (nextMonthStart now) = true := by
  refine ⟨?_, ?_, ?_, ?_, ?_⟩
  · unfold resolvePlanPeriod
    rw [h]
  · rfl
  · rfl
  · simp only [Timestamp.leb, monthStart, decide_eq_true_eq]
    exact Or.inr ⟨trivial, Nat.zero_le _⟩
  · simp only [Timestamp.ltb, nextMonthStart, decide_eq_true_eq]
    exact Or.inl (Nat.lt_succ_self _)

/-- Witness for C7: a brand-new user with an empty subscription table. -/
theorem default_resolution_free_month_witness :
    lookupActiveSub 1 ((⟨[], []⟩ : DB)).subs = none
    ∧ (resolvePlanPeriod ((⟨[], []⟩ : DB)).subs 1 ⟨600, 5⟩
          = ("free", monthStart ⟨600, 5⟩, nextMonthStart ⟨600, 5⟩)
      ∧ getCurrentBillingPeriod ⟨600, 5⟩ = (monthStart ⟨600, 5⟩, nextMonthStart ⟨600, 5⟩)
      ∧ getUserSubscription (some 1) (Except.ok none) ⟨600, 5⟩
          = ⟨"free", "active", monthStart ⟨600, 5⟩, nextMonthStart ⟨600, 5⟩⟩
      ∧ Timestamp.leb (monthStart ⟨600, 5⟩) ⟨600, 5⟩ = true
      ∧ Timestamp.ltb ⟨600, 5⟩ (nextMonthStart ⟨600, 5⟩) = true) :=
  ⟨rfl, default_resolution_free_month ⟨[], []⟩ 1 ⟨600, 5⟩ rfl⟩

/--
C8: the enforcement pipeline ignores the client-supplied user_id: two
creation requests identical up to that field produce the same decision
and the same end state, and when a record is stored its user_id is the
server-side authenticated identity.
-/
theorem enforcement_ignores_client_user_id (db : DB) (auth : Option Nat)
    (now : Timestamp) (cuid1 cuid2 : Nat) (ca : Option Timestamp) :
    insertAnalysis db auth now ⟨cuid1, ca⟩ = insertAnalysis db auth now ⟨cuid2, ca⟩
    ∧ (storedUser (insertAnalysis db auth now ⟨cuid1, ca⟩) = none
       ∨ storedUser (insertAnalysis db auth now ⟨cuid1, ca⟩) = auth) := by
  constructor
  · cases auth <;> rfl
  · cases auth with
    | none => exact Or.inl rfl
    | some uid =>
      cases henf : enforce_subscription_limits db (some uid) now ⟨cuid1, ca⟩ with
      | error e =>
        left
        unfold insertAnalysis storedUser
        rw [henf]
      | ok r =>
        right
        unfold insertAnalysis storedUser
        rw [henf]
        show some r.user_id = some uid
        rw [enforce_ok_user db uid now ⟨cuid1, ca⟩ r henf]

/--
C9: delivering the same invoice.payment_succeeded (subscriptionRenewed)
event twice leaves the subscription and usage tables in the same end
state as delivering it once: the subscription update writes the same
values again, and the usage-reset upsert has no effect either time (its
ON CONFLICT target matches no unique constraint, so it fails and the
error is discarded).
-/
theorem invoice_payment_succeeded_idempotent (sid : Option String)
    (ps pe t : Timestamp) (db : DB) :
    handleInvoicePaymentSucceeded sid ps pe t (handleInvoicePaymentSucceeded sid ps pe t db)
      = handleInvoicePaymentSucceeded sid ps pe t db := by
  cases sid with
  | none => rfl
  | some s =>
    rw [handleInvoicePaymentSucceeded_eval s ps pe t db,
        handleInvoicePaymentSucceeded_eval s ps pe t ⟨db.subs.map (renewSub s ps pe t), db.usage⟩]
    show DB.mk ((db.subs.map (renewSub s ps pe t)).map (renewSub s ps pe t)) db.usage = _
    rw [List.map_map]
    have hidem : (renewSub s ps pe t ∘ renewSub s ps pe t) = renewSub s ps pe t := by
      funext r
      exact renewSub_idem s ps pe t r
    rw [hidem]

/--
C10: every failure of getCurrentUsageCount — an unauthenticated caller,
or any failed usage read (storage error and the PGRST116 no-row case
alike) — yields the value 0 rather than an error, so a caller cannot
tell no-usage-yet apart from could-not-read.
-/
theorem getCurrentUsageCount_errors_to_zero (auth : Option Nat)
    (usageRead : Except String Nat)
    (h : auth = none ∨ ∃ e, usageRead = Except.error e) :
    getCurrentUsageCount auth usageRead = 0 := by
  rcases h with h | ⟨e, h⟩
  · rw [h]
    rfl
  · rw [h]
    cases auth <;> rfl

/-- Witness for C10: an authenticated caller whose usage row does not
exist (PGRST116) reads count 0. -/
theorem getCurrentUsageCount_errors_to_zero_witness :
    ((some 7 : Option Nat) = none
      ∨ ∃ e, (Except.error "PGRST116" : Except String Nat) = Except.error e)
    ∧ getCurrentUsageCount (some 7) (Except.error "PGRST116") = 0 :=
  ⟨Or.inr ⟨"PGRST116", rfl⟩,
    getCurrentUsageCount_errors_to_zero (some 7) (Except.error "PGRST116")
      (Or.inr ⟨"PGRST116", rfl⟩)⟩
